import Mathlib

/-!
Verification of the two-hop zipcode/temperature pipeline (service-a, the Entry
Orchestrator, and service-b, the Resolution Orchestrator) against its
natural-language specification.

The Go sources are shallowly embedded: each HTTP handler becomes a pure Lean
function from its request data and from oracles describing the outcomes of its
outbound calls (transport error, undecodable body, decoded value) to the pair
of (the ordered list of observable events it emits: span starts, span ends,
outbound HTTP calls) and (the HTTP response it writes). Go float64 temperature
arithmetic is idealised as exact rational arithmetic; Go string byte length is
String.utf8ByteSize; trace propagation is modelled on a header carrier holding
an optional trace id.
-/

/-- A Go ASCII digit: the runes matched by the character class in the pattern
of service-a (Go regexp matches the class as the digits 0 to 9). -/
def isGoDigit (c : Char) : Bool := '0' ≤ c && c ≤ '9'

/-- Anchored matching of a list of single-character classes against the whole
rune sequence of the subject string: the compiled form of a fully anchored
concatenation of character classes. -/
def matchSeq : List (Char → Bool) → List Char → Bool
  | [], [] => true
  | [], _ :: _ => false
  | _ :: _, [] => false
  | p :: ps, c :: cs => p c && matchSeq ps cs

/-- The compiled form of the fixed pattern of service-a (caret, eight digit
classes, dollar): eight ASCII-digit character classes, fully anchored. -/
def cepPattern : List (Char → Bool) := List.replicate 8 isGoDigit

/-- Models Go regexp.MatchString applied to the fixed pattern of
isValidZipCode in src/service-a/main.go line 189. The pattern is a
syntactically valid regular expression, so compilation never fails: the error
result is always nil, and the call yields the anchored match result for every
subject string. -/
def goMatchString (s : String) : Except String Bool :=
  Except.ok (matchSeq cepPattern s.data)

/-- isValidZipCode of src/service-a/main.go lines 188-191: the boolean match
result of the fixed pattern, with the error value of MatchString discarded. -/
def isValidZipCode (zipCode : String) : Bool :=
  match goMatchString zipCode with
  | Except.ok b => b
  | Except.error _ => false

/-- The shape check of the resolution handler, inlined at
src/unnamed/part_002 line 139 and src/service-b/main.go line 28: the request
is refused when the Go byte length of the zipcode query parameter differs
from 8 (no digit check is performed there). -/
def resolutionAccepts (zipCode : String) : Bool := zipCode.utf8ByteSize == 8

/-- The external targets of the outbound HTTP GET calls of the two services:
serviceB is the downstream call of service-a (its URL carries the cep),
viacep the locality provider of getLocation (its URL carries the zip code),
weatherApi the weather provider of getWeather (its URL carries the
query-escaped city). -/
inductive Target
  | serviceB
  | viacep
  | weatherApi
deriving DecidableEq, Repr

/-- The names of the spans the two services start, as structured values; the
source strings are: spanInicial r renders as SPAN_INICIAL followed by the
REQUEST_NAME_OTEL value r, and the other three render as Chamada externa:
followed by getTemperatureByZipCode, getLocation or getWeather. -/
inductive SpanName
  | spanInicial (requestName : String)
  | getTemperatureByZipCode
  | getLocation
  | getWeather
deriving DecidableEq, Repr

/-- The observable events a handler emits, in program order: starting a span,
ending a span, and issuing an outbound HTTP GET. -/
inductive Event
  | spanStart (name : SpanName)
  | spanEnd (name : SpanName)
  | httpGet (target : Target)
deriving DecidableEq, Repr

/-- The composed response struct of the resolution service (JSON fields city,
temp_C, temp_F, temp_K); also the ZipCodeResponse shape service-a decodes the
downstream body into. Go float64 values are idealised as rationals. -/
structure LocationInfoAndCity where
  city : String
  tempC : ℚ
  tempF : ℚ
  tempK : ℚ
deriving DecidableEq, Repr

/-- The decoded weather provider body: the temp_c field nested under current,
flattened here. -/
structure WeatherInfo where
  temperature : ℚ
deriving DecidableEq, Repr

/-- A response body written by a handler: either the plain-text message of
http.Error or a JSON-encoded composed response. -/
inductive RespBody
  | text (msg : String)
  | json (payload : LocationInfoAndCity)
deriving DecidableEq, Repr

/-- An HTTP response as a handler writes it: status code and body. -/
structure HttpResponse where
  status : Nat
  body : RespBody
deriving DecidableEq, Repr

/-- Outcome of the locality provider call of getLocation, as an oracle:
client.Get returned a non-nil error, the JSON decode of the body failed, or
the body decoded to a LocationInfo whose localidade field (possibly empty) is
carried. -/
inductive LocationResult
  | transportError (msg : String)
  | decodeError (msg : String)
  | ok (localidade : String)
deriving DecidableEq, Repr

/-- Outcome of the weather provider call of getWeather, as an oracle. -/
inductive WeatherResult
  | transportError (msg : String)
  | decodeError (msg : String)
  | ok (weather : WeatherInfo)
deriving DecidableEq, Repr

/-- The receipt-marker segment at the top of both handlers: the span
SPAN_INICIAL is started and immediately ended (it wraps no work). -/
def receiptTrace (requestName : String) : List Event :=
  [Event.spanStart (SpanName.spanInicial requestName),
   Event.spanEnd (SpanName.spanInicial requestName)]

/-- The event segment of getLocation: its span is started, the provider GET
issued, and the span ended by defer before the function returns, on every
path. -/
def locationTrace : List Event :=
  [Event.spanStart SpanName.getLocation, Event.httpGet Target.viacep,
   Event.spanEnd SpanName.getLocation]

/-- The event segment of getWeather: span started, provider GET issued, span
ended by defer before the function returns, on every path. -/
def weatherTrace : List Event :=
  [Event.spanStart SpanName.getWeather, Event.httpGet Target.weatherApi,
   Event.spanEnd SpanName.getWeather]

/-- The event segment of the downstream call of service-a: its span is
started, the GET to service-b issued, and the span ended by defer at handler
return, on every path that starts it. -/
def downstreamTrace : List Event :=
  [Event.spanStart SpanName.getTemperatureByZipCode, Event.httpGet Target.serviceB,
   Event.spanEnd SpanName.getTemperatureByZipCode]

/-- getLocation of src/unnamed/part_002 lines 188-211: starts the span named
Chamada externa: getLocation, ends it by defer on every path, issues one GET
to the viacep provider, and returns either the non-nil error of the transport
or decode failure, or the decoded localidade (possibly the empty string) with
a nil error. -/
def getLocation (outcome : LocationResult) (zipCode : String) :
    List Event × Except String String :=
  (locationTrace,
   match outcome with
   | LocationResult.transportError msg => Except.error msg
   | LocationResult.decodeError msg => Except.error msg
   | LocationResult.ok localidade => Except.ok localidade)

/-- getWeather of src/unnamed/part_002 lines 213-237: starts the span named
Chamada externa: getWeather, ends it by defer on every path, issues one GET to
the weather provider, and returns either the non-nil transport or decode
error, or the decoded WeatherInfo. -/
def getWeather (outcome : WeatherResult) (city : String) :
    List Event × Except String WeatherInfo :=
  (weatherTrace,
   match outcome with
   | WeatherResult.transportError msg => Except.error msg
   | WeatherResult.decodeError msg => Except.error msg
   | WeatherResult.ok weather => Except.ok weather)

/-- temperatureHandler of src/unnamed/part_002 lines 127-169 (the resolution
orchestrator): after the receipt-marker span (started and immediately ended),
the zipcode query parameter is refused with 412 when its byte length is not 8;
then getLocation is called, and a non-nil error OR an empty city yields 404
with the message can not find zipcode; then getWeather is called, a non-nil
error yielding 500; finally the composed response is written with status 200,
with tempF = tempC*1.8+32 and tempK = tempC+273. -/
def temperatureHandler (requestName zipCode : String)
    (locationOutcome : LocationResult) (weatherOutcome : WeatherResult) :
    List Event × HttpResponse :=
  let receipt := receiptTrace requestName
  if !resolutionAccepts zipCode then
    (receipt, ⟨412, RespBody.text "invalid zipcode"⟩)
  else
    let loc := getLocation locationOutcome zipCode
    match loc.2 with
    | Except.error _ => (receipt ++ loc.1, ⟨404, RespBody.text "can not find zipcode"⟩)
    | Except.ok city =>
      if city = "" then
        (receipt ++ loc.1, ⟨404, RespBody.text "can not find zipcode"⟩)
      else
        let wea := getWeather weatherOutcome city
        match wea.2 with
        | Except.error _ =>
            (receipt ++ loc.1 ++ wea.1, ⟨500, RespBody.text "failed to get weather info"⟩)
        | Except.ok weather =>
            let tempC := weather.temperature
            (receipt ++ loc.1 ++ wea.1,
             ⟨200, RespBody.json { city := city, tempC := tempC,
                                   tempF := tempC * 1.8 + 32, tempK := tempC + 273 }⟩)

/-- The request body of POST /zipcode as service-a sees it: not decodable as
JSON for the ZipCodeRequest shape, decodable JSON without a cep field, or
decodable JSON with a cep string. -/
inductive ReqBody
  | malformed (msg : String)
  | jsonWithoutCep
  | jsonWithCep (cep : String)
deriving DecidableEq, Repr

/-- Go json.Decode into ZipCodeRequest (src/service-a/main.go lines 146-150):
an undecodable body returns a non-nil error; a decodable body that lacks the
cep field leaves the zero value, the empty string. -/
def decodeZipCodeRequest : ReqBody → Except String String
  | ReqBody.malformed msg => Except.error msg
  | ReqBody.jsonWithoutCep => Except.ok ""
  | ReqBody.jsonWithCep cep => Except.ok cep

/-- The body of the downstream response as service-a decodes it: either it
does not decode as the ZipCodeResponse shape, or it decodes to a payload. -/
inductive DownstreamBody
  | undecodable (msg : String)
  | decoded (payload : LocationInfoAndCity)
deriving DecidableEq, Repr

/-- Outcome of the downstream client.Get of service-a, as an oracle: a non-nil
transport error, or a response with a status code and a body. -/
inductive DownstreamResult
  | transportError (msg : String)
  | response (status : Nat) (body : DownstreamBody)
deriving DecidableEq, Repr

/-- The HTTP method of the inbound request. -/
inductive Method
  | get
  | post
deriving DecidableEq, Repr

/-- zipCodeHandler of src/service-a/main.go lines 130-186 (the entry
orchestrator): after the receipt-marker span, non-POST methods get 405; an
undecodable body gets 400 with the decode error text; a cep refused by
isValidZipCode gets 412 with the message invalid zipcode; otherwise the span
wrapping the downstream call is started (ended by defer at handler return) and
one GET is issued to service-b. A transport error gets 500 with the error
text; a downstream 404 gets 404 with the message can not find zipcode; an
undecodable downstream body gets 500 with the decode error text; otherwise the
downstream status is written as is and the decoded payload re-encoded as the
body. -/
def zipCodeHandler (requestName : String) (method : Method) (body : ReqBody)
    (downstream : DownstreamResult) : List Event × HttpResponse :=
  let receipt := receiptTrace requestName
  if method ≠ Method.post then
    (receipt, ⟨405, RespBody.text "Only POST method is allowed"⟩)
  else
    match decodeZipCodeRequest body with
    | Except.error msg => (receipt, ⟨400, RespBody.text msg⟩)
    | Except.ok cep =>
      if !isValidZipCode cep then
        (receipt, ⟨412, RespBody.text "invalid zipcode"⟩)
      else
        let callTrace := downstreamTrace
        match downstream with
        | DownstreamResult.transportError msg =>
            (receipt ++ callTrace, ⟨500, RespBody.text msg⟩)
        | DownstreamResult.response status b =>
          if status = 404 then
            (receipt ++ callTrace, ⟨404, RespBody.text "can not find zipcode"⟩)
          else
            match b with
            | DownstreamBody.undecodable msg =>
                (receipt ++ callTrace, ⟨500, RespBody.text msg⟩)
            | DownstreamBody.decoded payload =>
                (receipt ++ callTrace, ⟨status, RespBody.json payload⟩)

/-- An HTTP header carrier restricted to what the W3C trace-context
propagator reads and writes: an optional traceparent entry, of which only the
trace id matters here, modelled as a natural number. -/
structure Carrier where
  traceparent : Option Nat
deriving DecidableEq, Repr

/-- The propagator Extract of otel: a traceparent present in the carrier
becomes the remote context of the returned context; an absent one leaves the
given context unchanged. A context is modelled by the trace id of its active
span, if any. -/
def extractContext (ctx : Option Nat) (carrier : Carrier) : Option Nat :=
  match carrier.traceparent with
  | some tid => some tid
  | none => ctx

/-- tracer.Start: a child span keeps the trace id of the active context; with
no active context the new span is a root carrying a fresh trace id. Returns
the updated context and the trace id of the started span. -/
def startSpan (fresh : Nat) (ctx : Option Nat) : Option Nat × Nat :=
  match ctx with
  | some tid => (some tid, tid)
  | none => (some fresh, fresh)

/-- The propagator Inject of otel: writes the trace id of the active context
into the carrier; with no active context the carrier is left unchanged. -/
def injectContext (ctx : Option Nat) (carrier : Carrier) : Carrier :=
  match ctx with
  | some tid => { traceparent := some tid }
  | none => carrier

/-- Lines 132-139 of src/service-a/main.go: the handler extracts the inbound
carrier into its context, starts the receipt-marker span SPAN_INICIAL (a root
with the fresh id freshA when the inbound request carried no context), and
injects the resulting context back into r.Header, the INBOUND carrier.
Returns the trace id active in the handler and the mutated inbound carrier. -/
def entryHandlerTrace (inbound : Carrier) (freshA : Nat) : Nat × Carrier :=
  let ctx := extractContext none inbound
  let (ctx2, tid) := startSpan freshA ctx
  (tid, injectContext ctx2 inbound)

/-- The outbound request of client.Get at src/service-a/main.go line 164:
http.NewRequest builds it from context.Background with a fresh header map, so
the otelhttp transport starts its client span from an EMPTY context (a new
root with the fresh id freshTransport) and injects that context into the
outbound carrier. The handler context is not attached to this request, and
the Inject of line 139 wrote only into the inbound r.Header. -/
def outboundRequestCarrier (freshTransport : Nat) : Carrier :=
  let backgroundCtx : Option Nat := none
  let (ctx, _tid) := startSpan freshTransport backgroundCtx
  injectContext ctx { traceparent := none }

/-- Lines 129-134 of src/unnamed/part_002: the resolution handler extracts
the carrier of the request it received and starts its receipt-marker span
from the result; the returned value is the trace id it observes. -/
def resolutionObservedTraceId (inbound : Carrier) (freshB : Nat) : Nat :=
  (startSpan freshB (extractContext none inbound)).2

/-- The two ends of the entry-to-resolution hop for one inbound request:
first the trace id active at the entry orchestrator, second the trace id the
resolution orchestrator observes on the request client.Get delivers to it. -/
def hopTraceIds (inbound : Carrier) (freshA freshTransport freshB : Nat) : Nat × Nat :=
  ((entryHandlerTrace inbound freshA).1,
   resolutionObservedTraceId (outboundRequestCarrier freshTransport) freshB)

/-- An event belonging to the weather resolver call: its span activity or its
provider GET. -/
def isWeatherEvent : Event → Bool
  | Event.spanStart SpanName.getWeather => true
  | Event.spanEnd SpanName.getWeather => true
  | Event.httpGet Target.weatherApi => true
  | _ => false

/-- The event marking completion of the location resolver call: the end of
its span. -/
def locationCompleted : Event → Bool
  | Event.spanEnd SpanName.getLocation => true
  | _ => false

/-- Scans a trace in order: true when no weather event occurs before the
location span has been closed (traces with no weather event at all are
trivially in order). -/
def weatherAfterLocation : List Event → Bool
  | [] => true
  | e :: es =>
    if isWeatherEvent e then false
    else if locationCompleted e then true
    else weatherAfterLocation es

/-- The location outcomes the orchestrator maps to 404: a failed call or a
successful call that returned the empty locality. -/
def locFailedOrEmpty : LocationResult → Bool
  | LocationResult.transportError _ => true
  | LocationResult.decodeError _ => true
  | LocationResult.ok localidade => localidade == ""

/-- Whether a trace contains an outbound HTTP call at all. -/
def hasRemoteCall (es : List Event) : Bool :=
  es.any fun e =>
    match e with
    | Event.httpGet _ => true
    | _ => false

/-- How many times a span with this name is started in a trace. -/
def startCount (n : SpanName) : List Event → Nat
  | [] => 0
  | Event.spanStart m :: es => (if m = n then 1 else 0) + startCount n es
  | _ :: es => startCount n es

/-- How many times a span with this name is ended in a trace. -/
def endCount (n : SpanName) : List Event → Nat
  | [] => 0
  | Event.spanEnd m :: es => (if m = n then 1 else 0) + endCount n es
  | _ :: es => endCount n es

/-- Every span name is ended in the trace exactly as many times as it is
started. -/
def spanBalanced (es : List Event) : Prop :=
  ∀ n, startCount n es = endCount n es

theorem matchSeq_replicate (p : Char → Bool) :
    ∀ (n : Nat) (cs : List Char),
      matchSeq (List.replicate n p) cs = true ↔ cs.length = n ∧ cs.all p = true
  | 0, [] => by simp [matchSeq]
  | 0, _ :: _ => by simp [matchSeq]
  | _ + 1, [] => by simp [List.replicate, matchSeq]
  | n + 1, c :: cs => by
    simp only [List.replicate, matchSeq, Bool.and_eq_true, List.all_cons,
      List.length_cons, Nat.add_left_inj, matchSeq_replicate p n cs]
    tauto

theorem isValidZipCode_iff (s : String) :
    isValidZipCode s = true ↔ s.data.length = 8 ∧ s.data.all isGoDigit = true := by
  show matchSeq (List.replicate 8 isGoDigit) s.data = true ↔ _
  rw [matchSeq_replicate]

theorem startCount_append (n : SpanName) (a b : List Event) :
    startCount n (a ++ b) = startCount n a + startCount n b := by
  induction a with
  | nil => simp [startCount]
  | cons e es ih => cases e <;> simp [startCount, ih] <;> omega

theorem endCount_append (n : SpanName) (a b : List Event) :
    endCount n (a ++ b) = endCount n a + endCount n b := by
  induction a with
  | nil => simp [endCount]
  | cons e es ih => cases e <;> simp [endCount, ih] <;> omega

theorem spanBalanced_append {a b : List Event} (ha : spanBalanced a)
    (hb : spanBalanced b) : spanBalanced (a ++ b) := by
  intro n
  rw [startCount_append, endCount_append, ha n, hb n]

theorem spanBalanced_startEnd (x : SpanName) :
    spanBalanced [Event.spanStart x, Event.spanEnd x] := by
  intro n
  by_cases h : x = n <;>
    simp [startCount, endCount, h]

theorem spanBalanced_wrapped (x : SpanName) (t : Target) :
    spanBalanced [Event.spanStart x, Event.httpGet t, Event.spanEnd x] := by
  intro n
  by_cases h : x = n <;>
    simp [startCount, endCount, h]

theorem spanBalanced_receiptTrace (requestName : String) :
    spanBalanced (receiptTrace requestName) :=
  spanBalanced_startEnd (SpanName.spanInicial requestName)

theorem spanBalanced_locationTrace : spanBalanced locationTrace :=
  spanBalanced_wrapped SpanName.getLocation Target.viacep

theorem spanBalanced_weatherTrace : spanBalanced weatherTrace :=
  spanBalanced_wrapped SpanName.getWeather Target.weatherApi

theorem spanBalanced_downstreamTrace : spanBalanced downstreamTrace :=
  spanBalanced_wrapped SpanName.getTemperatureByZipCode Target.serviceB

theorem zipCodeHandler_trace_shape (requestName : String) (method : Method)
    (body : ReqBody) (down : DownstreamResult) :
    (zipCodeHandler requestName method body down).1 = receiptTrace requestName ∨
    (zipCodeHandler requestName method body down).1 =
      receiptTrace requestName ++ downstreamTrace := by
  cases method with
  | get => exact Or.inl rfl
  | post =>
    cases body with
    | malformed msg => exact Or.inl rfl
    | jsonWithoutCep => exact Or.inl rfl
    | jsonWithCep cep =>
      cases hval : isValidZipCode cep with
      | false => left; simp [zipCodeHandler, decodeZipCodeRequest, hval]
      | true =>
        cases down with
        | transportError msg =>
          right; simp [zipCodeHandler, decodeZipCodeRequest, hval]
        | response status b =>
          by_cases hs : status = 404
          · right; simp [zipCodeHandler, decodeZipCodeRequest, hval, hs]
          · cases b <;>
              (right; simp [zipCodeHandler, decodeZipCodeRequest, hval, hs])

theorem temperatureHandler_trace_shape (requestName zipCode : String)
    (loc : LocationResult) (wea : WeatherResult) :
    (temperatureHandler requestName zipCode loc wea).1 = receiptTrace requestName ∨
    (temperatureHandler requestName zipCode loc wea).1 =
      receiptTrace requestName ++ locationTrace ∨
    (temperatureHandler requestName zipCode loc wea).1 =
      receiptTrace requestName ++ locationTrace ++ weatherTrace := by
  cases hz : resolutionAccepts zipCode with
  | false => left; simp [temperatureHandler, hz]
  | true =>
    cases loc with
    | transportError msg =>
      right; left; simp [temperatureHandler, getLocation, hz]
    | decodeError msg =>
      right; left; simp [temperatureHandler, getLocation, hz]
    | ok localidade =>
      by_cases hl : localidade = ""
      · right; left; simp [temperatureHandler, getLocation, hz, hl]
      · cases wea <;>
          (right; right;
           simp [temperatureHandler, getLocation, getWeather, hz, hl])

/-- C1: the claim says the trace id observed at the Resolution Orchestrator
equals the trace id generated or extracted at the Entry Orchestrator. In the
code the entry handler injects its context only into the inbound r.Header and
client.Get builds the outbound request from context.Background, so the
otelhttp transport mints a fresh root trace id and that is what service-b
observes. At the concrete input (inbound traceparent with trace id 1, fresh
ids 2 for SPAN_INICIAL and 3 for the transport span, 4 for the service-b
root case) the entry handler works under trace id 1 while service-b observes
trace id 3. -/
theorem c1_trace_id_not_round_tripped :
    hopTraceIds { traceparent := some 1 } 2 3 4 = (1, 3) ∧ (3 : Nat) ≠ 1 :=
  ⟨rfl, by decide⟩

/-- C2 counterexample: the string abcdefgh has byte length 8 and no digit at
all; the resolution service accepts it while it is not a string of 8 ASCII
digits (the entry validator rejects it), refuting the claim that validation
in the Resolution Orchestrator accepts only 8-digit strings. -/
theorem c2_resolution_accepts_non_digits :
    resolutionAccepts "abcdefgh" = true ∧ isValidZipCode "abcdefgh" = false :=
  ⟨by decide, by decide⟩

/-- C2 amended: the Entry Orchestrator validator accepts exactly the strings
of 8 ASCII digits, but the Resolution Orchestrator checks only that the byte
length is 8, accepting any 8-byte string whether or not its characters are
digits. -/
theorem c2_validators_differ (s : String) :
    (isValidZipCode s = true ↔ s.data.length = 8 ∧ s.data.all isGoDigit = true) ∧
    (resolutionAccepts s = true ↔ s.utf8ByteSize = 8) := by
  refine ⟨isValidZipCode_iff s, ?_⟩
  simp [resolutionAccepts]

/-- C9: isValidZipCode is total and deterministic; the fixed pattern always
compiles, so the error discarded at line 189 is always nil and the returned
boolean is exactly the anchored match result, which holds precisely for the
strings of eight ASCII digits: the ignored error never causes a
misclassification. -/
theorem c9_isValidZipCode_total (s : String) :
    ∃ b, goMatchString s = Except.ok b ∧ isValidZipCode s = b ∧
      (b = true ↔ s.data.length = 8 ∧ s.data.all isGoDigit = true) :=
  ⟨matchSeq cepPattern s.data, rfl, rfl, isValidZipCode_iff s⟩

/-- C10: a decodable body without a cep field decodes to the zero value, the
empty string, which fails validation, so the entry handler answers with the
shape-validation status 412 (and the same for an explicit empty cep), not
with the 400 reserved for undecodable bodies. -/
theorem c10_missing_cep_field_gets_412 (requestName : String)
    (down : DownstreamResult) :
    ((zipCodeHandler requestName Method.post ReqBody.jsonWithoutCep down).2 =
      { status := 412, body := RespBody.text "invalid zipcode" }) ∧
    ((zipCodeHandler requestName Method.post (ReqBody.jsonWithCep "") down).2 =
      { status := 412, body := RespBody.text "invalid zipcode" }) ∧
    (412 : Nat) ≠ 400 :=
  ⟨rfl, rfl, by decide⟩

/-- C3 counterexample: with a valid-length zip code and a transport failure of
the location call, the resolution handler answers 404 can not find zipcode,
not the 500 UpstreamError the claim requires; the two outcomes are not
distinguished in the response. -/
theorem c3_transport_error_mapped_to_404 :
    ((temperatureHandler "service-b-request" "01310900"
        (LocationResult.transportError "connection refused")
        (WeatherResult.ok ⟨25⟩)).2 =
      { status := 404, body := RespBody.text "can not find zipcode" }) ∧
    (404 : Nat) ≠ 500 :=
  ⟨rfl, by decide⟩

/-- C3 amended: the resolution orchestrator maps BOTH a failed location call
and an empty locality to the same 404 can not find zipcode response; the two
outcomes are distinguished only inside getLocation itself, which returns a
non-nil error for transport or decode failures and a normal empty-string
value for an empty locality. -/
theorem c3_resolution_conflates_failure_and_empty (requestName zipCode msg : String)
    (wea : WeatherResult) (hz : resolutionAccepts zipCode = true) :
    ((temperatureHandler requestName zipCode (LocationResult.transportError msg) wea).2 =
      { status := 404, body := RespBody.text "can not find zipcode" }) ∧
    ((temperatureHandler requestName zipCode (LocationResult.ok "") wea).2 =
      { status := 404, body := RespBody.text "can not find zipcode" }) ∧
    (getLocation (LocationResult.transportError msg) zipCode).2 = Except.error msg ∧
    (getLocation (LocationResult.ok "") zipCode).2 = Except.ok "" := by
  refine ⟨?_, ?_, rfl, rfl⟩ <;>
    simp [temperatureHandler, getLocation, hz]

/-- C3 witness: the amended statement at the concrete input 01310900 with a
transport failure message boom. -/
theorem c3_resolution_conflates_witness :
    ((temperatureHandler "service-b-request" "01310900"
        (LocationResult.transportError "boom") (WeatherResult.ok ⟨25⟩)).2 =
      { status := 404, body := RespBody.text "can not find zipcode" }) ∧
    ((temperatureHandler "service-b-request" "01310900"
        (LocationResult.ok "") (WeatherResult.ok ⟨25⟩)).2 =
      { status := 404, body := RespBody.text "can not find zipcode" }) ∧
    (getLocation (LocationResult.transportError "boom") "01310900").2 =
      Except.error "boom" ∧
    (getLocation (LocationResult.ok "") "01310900").2 = Except.ok "" :=
  c3_resolution_conflates_failure_and_empty "service-b-request" "01310900" "boom"
    (WeatherResult.ok ⟨25⟩) (by decide)

/-- C4: for every Celsius reading c delivered by the weather provider and a
non-empty city of valid zip code, the composed response keeps Celsius
unchanged and satisfies exactly Fahrenheit = c times 1.8 plus 32 and
Kelvin = c plus 273 (not 273.15). -/
theorem c4_unit_conversion (requestName zipCode city : String) (c : ℚ)
    (hz : resolutionAccepts zipCode = true) (hc : city ≠ "") :
    (temperatureHandler requestName zipCode (LocationResult.ok city)
        (WeatherResult.ok ⟨c⟩)).2 =
      { status := 200,
        body := RespBody.json
          { city := city, tempC := c, tempF := c * 1.8 + 32, tempK := c + 273 } } := by
  simp [temperatureHandler, getLocation, getWeather, hz, hc]

/-- C4 witness: Celsius 25 yields Fahrenheit 77 and Kelvin 298 exactly, at
the concrete scenario input. -/
theorem c4_unit_conversion_witness :
    (temperatureHandler "service-b-request" "01310900"
        (LocationResult.ok "Sao Paulo") (WeatherResult.ok ⟨25⟩)).2 =
      { status := 200,
        body := RespBody.json
          { city := "Sao Paulo", tempC := 25, tempF := 77, tempK := 298 } } := by
  have h77 : (25 : ℚ) * 1.8 + 32 = 77 := by norm_num
  have h298 : (25 : ℚ) + 273 = 298 := by norm_num
  have h := c4_unit_conversion "service-b-request" "01310900" "Sao Paulo" 25
    (by decide) (by decide)
  rw [h, h77, h298]

/-- C5 counterexample: abcdefgh fails the 8-ASCII-digit shape rule (the entry
validator rejects it), yet a request carrying it reaching the Resolution
Orchestrator directly is not refused: the handler issues the location
provider call and answers 200, refuting no remote calls are made for a
shape-invalid postal code. -/
theorem c5_resolution_calls_provider_despite_invalid_shape :
    isValidZipCode "abcdefgh" = false ∧
    hasRemoteCall (temperatureHandler "service-b-request" "abcdefgh"
        (LocationResult.ok "Aracaju") (WeatherResult.ok ⟨25⟩)).1 = true ∧
    (temperatureHandler "service-b-request" "abcdefgh"
        (LocationResult.ok "Aracaju") (WeatherResult.ok ⟨25⟩)).2.status = 200 ∧
    (200 : Nat) ≠ 412 :=
  ⟨by decide, rfl, rfl, by decide⟩

/-- C5 amended: each orchestrator fails fast against ITS OWN shape check with
status 412 and no outbound call: the entry handler when the cep is not 8
ASCII digits, the resolution handler when the byte length of the zipcode is
not 8 (a length-8 non-digit code passes the resolution check, as the
counterexample shows). -/
theorem c5_fail_fast_per_orchestrator (requestName zipCode cep : String)
    (body : ReqBody) (down : DownstreamResult) (loc : LocationResult)
    (wea : WeatherResult)
    (hdec : decodeZipCodeRequest body = Except.ok cep)
    (hval : isValidZipCode cep = false)
    (hlen : resolutionAccepts zipCode = false) :
    ((zipCodeHandler requestName Method.post body down).2.status = 412 ∧
      hasRemoteCall (zipCodeHandler requestName Method.post body down).1 = false) ∧
    ((temperatureHandler requestName zipCode loc wea).2.status = 412 ∧
      hasRemoteCall (temperatureHandler requestName zipCode loc wea).1 = false) := by
  constructor
  · simp [zipCodeHandler, hdec, hval, hasRemoteCall, receiptTrace]
  · simp [temperatureHandler, hlen, hasRemoteCall, receiptTrace]

/-- C5 witness: the amended statement at the scenario input cep 123. -/
theorem c5_fail_fast_witness :
    ((zipCodeHandler "service-a-request" Method.post (ReqBody.jsonWithCep "123")
        (DownstreamResult.transportError "x")).2.status = 412 ∧
      hasRemoteCall (zipCodeHandler "service-a-request" Method.post
        (ReqBody.jsonWithCep "123") (DownstreamResult.transportError "x")).1 = false) ∧
    ((temperatureHandler "service-b-request" "123" (LocationResult.ok "Aracaju")
        (WeatherResult.ok ⟨25⟩)).2.status = 412 ∧
      hasRemoteCall (temperatureHandler "service-b-request" "123"
        (LocationResult.ok "Aracaju") (WeatherResult.ok ⟨25⟩)).1 = false) :=
  c5_fail_fast_per_orchestrator "service-a-request" "123" "123"
    (ReqBody.jsonWithCep "123") (DownstreamResult.transportError "x")
    (LocationResult.ok "Aracaju") (WeatherResult.ok ⟨25⟩) rfl (by decide) (by decide)

/-- C6: in every resolution request with a well-shaped zip code, no weather
event precedes the closing of the location span, and whenever the location
call failed or returned an empty locality the trace contains no weather event
at all and the response is 404 can not find zipcode. -/
theorem c6_location_completes_before_weather (requestName zipCode : String)
    (loc : LocationResult) (wea : WeatherResult)
    (hz : resolutionAccepts zipCode = true) :
    weatherAfterLocation (temperatureHandler requestName zipCode loc wea).1 = true ∧
    (!locFailedOrEmpty loc
      || ((temperatureHandler requestName zipCode loc wea).1.all
            (fun e => !isWeatherEvent e)
          && (temperatureHandler requestName zipCode loc wea).2
              == { status := 404, body := RespBody.text "can not find zipcode" })) = true := by
  cases loc with
  | transportError msg =>
    simp [temperatureHandler, getLocation, hz, receiptTrace, locationTrace,
      weatherAfterLocation, isWeatherEvent, locationCompleted, locFailedOrEmpty]
  | decodeError msg =>
    simp [temperatureHandler, getLocation, hz, receiptTrace, locationTrace,
      weatherAfterLocation, isWeatherEvent, locationCompleted, locFailedOrEmpty]
  | ok localidade =>
    by_cases hl : localidade = ""
    · subst hl
      simp [temperatureHandler, getLocation, hz, receiptTrace, locationTrace,
        weatherAfterLocation, isWeatherEvent, locationCompleted, locFailedOrEmpty]
    · cases wea <;>
        simp [temperatureHandler, getLocation, getWeather, hz, hl, receiptTrace,
          locationTrace, weatherTrace, weatherAfterLocation, isWeatherEvent,
          locationCompleted, locFailedOrEmpty]

/-- C6 witness: the scenario of the unknown code, localidade empty at the
concrete input, instantiating the ordering statement. -/
theorem c6_location_before_weather_witness :
    weatherAfterLocation (temperatureHandler "service-b-request" "01310900"
        (LocationResult.ok "") (WeatherResult.ok ⟨25⟩)).1 = true ∧
    (!locFailedOrEmpty (LocationResult.ok "")
      || ((temperatureHandler "service-b-request" "01310900"
            (LocationResult.ok "") (WeatherResult.ok ⟨25⟩)).1.all
            (fun e => !isWeatherEvent e)
          && (temperatureHandler "service-b-request" "01310900"
              (LocationResult.ok "") (WeatherResult.ok ⟨25⟩)).2
              == { status := 404, body := RespBody.text "can not find zipcode" })) = true :=
  c6_location_completes_before_weather "service-b-request" "01310900"
    (LocationResult.ok "") (WeatherResult.ok ⟨25⟩) (by decide)

/-- C7: with a valid cep, the entry handler relays the downstream outcome: a
transport failure becomes 500 with the error text, a downstream 404 becomes
404 can not find zipcode, a downstream 500 stays 500, and any non-404
downstream response with a decodable body is relayed with the downstream
status and the decoded payload unchanged. -/
theorem c7_entry_relays_downstream (requestName : String) (body : ReqBody)
    (cep msg : String) (db : DownstreamBody) (payload : LocationInfoAndCity)
    (status : Nat)
    (hdec : decodeZipCodeRequest body = Except.ok cep)
    (hval : isValidZipCode cep = true)
    (hstatus : status ≠ 404) :
    ((zipCodeHandler requestName Method.post body
        (DownstreamResult.transportError msg)).2 =
      { status := 500, body := RespBody.text msg }) ∧
    ((zipCodeHandler requestName Method.post body
        (DownstreamResult.response 404 db)).2 =
      { status := 404, body := RespBody.text "can not find zipcode" }) ∧
    ((zipCodeHandler requestName Method.post body
        (DownstreamResult.response 500 db)).2.status = 500) ∧
    ((zipCodeHandler requestName Method.post body
        (DownstreamResult.response status (DownstreamBody.decoded payload))).2 =
      { status := status, body := RespBody.json payload }) :=
  ⟨by simp [zipCodeHandler, hdec, hval],
   by simp [zipCodeHandler, hdec, hval],
   by cases db <;> simp [zipCodeHandler, hdec, hval],
   by simp [zipCodeHandler, hdec, hval, hstatus]⟩

/-- C7 witness: the relay statement at the concrete cep 01310900 with a
decodable 200 payload. -/
theorem c7_entry_relays_witness :
    ((zipCodeHandler "service-a-request" Method.post
        (ReqBody.jsonWithCep "01310900") (DownstreamResult.transportError "dial tcp")).2 =
      { status := 500, body := RespBody.text "dial tcp" }) ∧
    ((zipCodeHandler "service-a-request" Method.post
        (ReqBody.jsonWithCep "01310900")
        (DownstreamResult.response 404 (DownstreamBody.undecodable "plain"))).2 =
      { status := 404, body := RespBody.text "can not find zipcode" }) ∧
    ((zipCodeHandler "service-a-request" Method.post
        (ReqBody.jsonWithCep "01310900")
        (DownstreamResult.response 500 (DownstreamBody.undecodable "plain"))).2.status = 500) ∧
    ((zipCodeHandler "service-a-request" Method.post
        (ReqBody.jsonWithCep "01310900")
        (DownstreamResult.response 200 (DownstreamBody.decoded
          { city := "Sao Paulo", tempC := 25, tempF := 77, tempK := 298 }))).2 =
      { status := 200, body := RespBody.json
          { city := "Sao Paulo", tempC := 25, tempF := 77, tempK := 298 } }) :=
  c7_entry_relays_downstream "service-a-request" (ReqBody.jsonWithCep "01310900")
    "01310900" "dial tcp" (DownstreamBody.undecodable "plain")
    { city := "Sao Paulo", tempC := 25, tempF := 77, tempK := 298 } 200
    rfl (by decide) (by decide)

/-- C8: on every exit path of both handlers every span name is ended exactly
as many times as it is started, and the spans wrapping getLocation and
getWeather are started and ended exactly once inside those functions
whatever the outcome of the wrapped call. -/
theorem c8_every_span_closed (requestName zipCode city : String)
    (method : Method) (body : ReqBody) (down : DownstreamResult)
    (loc : LocationResult) (wea : WeatherResult) :
    spanBalanced (zipCodeHandler requestName method body down).1 ∧
    spanBalanced (temperatureHandler requestName zipCode loc wea).1 ∧
    (startCount SpanName.getLocation (getLocation loc zipCode).1 = 1 ∧
     endCount SpanName.getLocation (getLocation loc zipCode).1 = 1) ∧
    (startCount SpanName.getWeather (getWeather wea city).1 = 1 ∧
     endCount SpanName.getWeather (getWeather wea city).1 = 1) := by
  refine ⟨?_, ?_, ⟨rfl, rfl⟩, ⟨rfl, rfl⟩⟩
  · rcases zipCodeHandler_trace_shape requestName method body down with h | h <;>
      rw [h]
    · exact spanBalanced_receiptTrace requestName
    · exact spanBalanced_append (spanBalanced_receiptTrace requestName)
        spanBalanced_downstreamTrace
  · rcases temperatureHandler_trace_shape requestName zipCode loc wea
      with h | h | h <;> rw [h]
    · exact spanBalanced_receiptTrace requestName
    · exact spanBalanced_append (spanBalanced_receiptTrace requestName)
        spanBalanced_locationTrace
    · exact spanBalanced_append (spanBalanced_append
        (spanBalanced_receiptTrace requestName) spanBalanced_locationTrace)
        spanBalanced_weatherTrace
